import Mathlib

/-!
Shallow embedding of the gameplay core of `jumper` (`src/game/mod.rs`).

Machine floats (`f32`) are modelled as exact rationals `ℚ`: every operation the
claims mention (comparison, `max`/`min`/`clamp`, addition, multiplication,
linear interpolation) is an exact arithmetic operation in the source algorithm.
The bevy ECS is modelled as an explicit `World` record: the player is the only
entity carrying `Velocity`, platforms carry position and collision box, damage
sources optionally carry a patrol `Line` with an `Interpolator` (moving
hazards).  Randomness (`thread_rng` draws inside the spawner) is modelled as an
oracle `ℕ → Draw` supplying the draws of each loop iteration; the claims are
quantified over all oracles.  The spawner's `while` loop is modelled with
explicit fuel together with a stabilisation theorem showing the loop is
quiescent within the fuel bound for every input.
-/

namespace Jumper

/-- Constants of `impl Velocity` in `src/game/mod.rs`. -/
def JUMP_VELOCITY : ℚ := 575

/-- Gravity constant `Velocity::GRAVITY`. -/
def GRAVITY : ℚ := 225

/-- Fall-speed clamp `Velocity::MAX_FALL_SPEED`. -/
def MAX_FALL_SPEED : ℚ := 700

/-- Horizontal acceleration `Velocity::HORIZONTAL_ACCELERATION`. -/
def HORIZONTAL_ACCELERATION : ℚ := 550

/-- Horizontal speed clamp `Velocity::MAX_HORIZONTAL_SPEED`. -/
def MAX_HORIZONTAL_SPEED : ℚ := 460

/-- Spawner constant `Platform::MIN_DISTANCE`. -/
def MIN_DISTANCE : ℚ := 175

/-- Spawner constant `SPAWN_BOUNDS` (local const in `platform_spawner`). -/
def SPAWN_BOUNDS : ℚ := 128

/-- Two-dimensional vector (bevy `Vec2`); the rendering `z = 0` extension is
dropped. -/
structure Vec2 where
  x : ℚ
  y : ℚ
  deriving DecidableEq, Repr

/-- Collision box `Box { width, height }`. -/
structure Box where
  width : ℚ
  height : ℚ
  deriving DecidableEq, Repr

/-- Overlap predicate `Box::test_overlap`: combined extents per axis, per-axis
center distance (`f32::distance` on scalars is absolute difference), true when
either axis distance is within the combined extent on that axis (logical OR). -/
def Box.test_overlap (self : Box) (self_pos : Vec2) (other : Box)
    (other_pos : Vec2) : Bool :=
  let combined_width := self.width + other.width
  let combined_height := self.height + other.height
  let x_distance := |self_pos.x - other_pos.x|
  let y_distance := |self_pos.y - other_pos.y|
  decide (x_distance ≤ combined_width) || decide (y_distance ≤ combined_height)

/-- Patrol direction of a `BackAndForth` interpolator. -/
inductive Direction where
  | Forward
  | Backward
  deriving DecidableEq, Repr

/-- The `std::ops::Not` implementation on `Direction`. -/
def Direction.flip : Direction → Direction
  | .Forward => .Backward
  | .Backward => .Forward

/-- Interpolation mode: `Wrapping` or `BackAndForth(Direction)`. -/
inductive InterpolationMode where
  | Wrapping
  | BackAndForth (dir : Direction)
  deriving DecidableEq, Repr

/-- Repeating bevy `Timer`, reduced to the fields the code reads: total
`duration`, wrapped `elapsed` time, and whether the last `tick` call completed
a cycle (for a repeating timer, `Timer::finished()` reports exactly that). -/
structure Timer where
  duration : ℚ
  elapsed : ℚ
  finishedThisTick : Bool
  deriving DecidableEq, Repr

/-- Advance a repeating timer by `delta` (bevy `Timer::tick`): elapsed time
accumulates and wraps modulo the duration once it reaches it. -/
def Timer.tick (t : Timer) (delta : ℚ) : Timer :=
  let total := t.elapsed + delta
  if t.duration ≤ total then
    { t with
      elapsed := total - t.duration * ((⌊total / t.duration⌋ : ℤ) : ℚ)
      finishedThisTick := true }
  else
    { t with elapsed := total, finishedThisTick := false }

/-- Cycle fraction `Timer::fraction()` = elapsed / duration. -/
def Timer.fraction (t : Timer) : ℚ := t.elapsed / t.duration

/-- Component `Interpolator { timer, mode }`. -/
structure Interpolator where
  timer : Timer
  mode : InterpolationMode
  deriving DecidableEq, Repr

/-- Patrol segment `Line(Vec2, Vec2)`. -/
structure Line where
  p0 : Vec2
  p1 : Vec2
  deriving DecidableEq, Repr

/-- Linear interpolation `Vec2::lerp` (glam): `self + (rhs - self) * s`. -/
def Vec2.lerp (a b : Vec2) (s : ℚ) : Vec2 :=
  ⟨a.x + (b.x - a.x) * s, a.y + (b.y - a.y) * s⟩

/-- One entity's pass of `step_interpolation`: tick the timer, flip a
`BackAndForth` direction when the cycle completed, pick the effective
parameter (`t` for `Wrapping`/`Forward`, `1 - t` for `Backward`), and place
the entity at the interpolated point.  Returns the new translation together
with the updated interpolator. -/
def step_interpolation_one (delta : ℚ) (line : Line) (ip : Interpolator) :
    Vec2 × Interpolator :=
  let timer := ip.timer.tick delta
  let mode :=
    if timer.finishedThisTick then
      match ip.mode with
      | .BackAndForth d => .BackAndForth d.flip
      | .Wrapping => .Wrapping
    else ip.mode
  let t :=
    match mode with
    | .Wrapping | .BackAndForth .Forward => timer.fraction
    | .BackAndForth .Backward => 1 - timer.fraction
  (line.p0.lerp line.p1 t, ⟨timer, mode⟩)

/-- Rust `f32::clamp(self, min, max)`: `min` when below, `max` when above,
`self` otherwise. -/
def fclamp (x lo hi : ℚ) : ℚ := if x < lo then lo else if x > hi then hi else x

/-- Player entity state: translation, velocity and collision box. -/
structure PlayerState where
  pos : Vec2
  vel : Vec2
  box : Box
  deriving DecidableEq, Repr

/-- A spawned platform: translation and collision box. -/
structure PlatformEnt where
  pos : Vec2
  box : Box
  deriving DecidableEq, Repr

/-- A spawned damage source: translation, collision box, and optionally a
patrol line with interpolator (moving hazards). -/
structure HazardEnt where
  pos : Vec2
  box : Box
  mover : Option (Line × Interpolator)
  deriving DecidableEq, Repr

/-- The game world: the optional player singleton, the platform and damage
source entities, the two frontier resources `ScreenHeight` and
`LastPlatformSpawnHeight`, the camera translation height, and the spawner's
`Local<bool>` warm-up flag `non_initial`. -/
structure World where
  player : Option PlayerState
  platforms : List PlatformEnt
  hazards : List HazardEnt
  screenHeight : ℚ
  lastSpawnHeight : ℚ
  cameraY : ℚ
  nonInitial : Bool
  deriving DecidableEq, Repr

/-- Core of `player_horizontal_control`: the velocity-x update as a function
of the pressed-key pair and `dt`.  Both-pressed and neither-pressed leave the
velocity unchanged. -/
def horizontal_control_step (dt : ℚ) (left_press right_press : Bool)
    (vx : ℚ) : ℚ :=
  match left_press, right_press with
  | true, true => vx
  | false, false => vx
  | true, false => max (-MAX_HORIZONTAL_SPEED) (vx - HORIZONTAL_ACCELERATION * dt)
  | false, true => min MAX_HORIZONTAL_SPEED (vx + HORIZONTAL_ACCELERATION * dt)

/-- System `player_horizontal_control`: no-op when the player query is empty,
otherwise update the player's horizontal velocity. -/
def player_horizontal_control (dt : ℚ) (left_press right_press : Bool)
    (w : World) : World :=
  match w.player with
  | none => w
  | some p =>
    let vx := horizontal_control_step dt left_press right_press p.vel.x
    { w with player := some { p with vel := ⟨vx, p.vel.y⟩ } }

/-- System `step_physics`: `translation += velocity * dt` for every entity
with both a `Transform` and a `Velocity`; the player is the only such
entity. -/
def step_physics (dt : ℚ) (w : World) : World :=
  match w.player with
  | none => w
  | some p =>
    let pos := Vec2.mk (p.pos.x + p.vel.x * dt) (p.pos.y + p.vel.y * dt)
    { w with player := some { p with pos := pos } }

/-- System `step_interpolation`: every entity with a `Line` and an
`Interpolator` (the moving damage sources) is advanced. -/
def step_interpolation (delta : ℚ) (w : World) : World :=
  { w with hazards := w.hazards.map fun h =>
      match h.mover with
      | none => h
      | some (line, ip) =>
        let r := step_interpolation_one delta line ip
        { h with pos := r.1, mover := some (line, r.2) } }

/-- System `keep_player_in_bounds`: with `screen_width = 128.0`, when the
player's x-translation leaves `[-(screen_width - box.width),
screen_width - box.width]`, clamp it to that range and zero the horizontal
velocity. -/
def keep_player_in_bounds (w : World) : World :=
  match w.player with
  | none => w
  | some p =>
    let screen_width : ℚ := 128
    let allowed_width := screen_width - p.box.width
    if ¬(-allowed_width ≤ p.pos.x ∧ p.pos.x ≤ allowed_width) then
      let pos := Vec2.mk (fclamp p.pos.x (-allowed_width) allowed_width) p.pos.y
      { w with player := some { p with pos := pos, vel := ⟨0, p.vel.y⟩ } }
    else w

/-- System `screen_tracking`: when a player exists and its y-translation is at
least the current `ScreenHeight`, raise `ScreenHeight` to it and place the
camera at `ScreenHeight + 250`. -/
def screen_tracking (w : World) : World :=
  match w.player with
  | none => w
  | some p =>
    if w.screenHeight ≤ p.pos.y then
      { w with screenHeight := p.pos.y, cameraY := p.pos.y + 250 }
    else w

/-- System `player_falling_jumping`: when the player exists, jump
(`velocity.y := JUMP_VELOCITY`) when not ascending (`velocity.y ≤ 0.1`) and
overlapping some platform, otherwise fall
(`velocity.y := max(-MAX_FALL_SPEED, velocity.y - GRAVITY * dt)`). -/
def player_falling_jumping (dt : ℚ) (w : World) : World :=
  match w.player with
  | none => w
  | some p =>
    if p.vel.y ≤ 1/10 ∧
        w.platforms.any (fun plat => p.box.test_overlap p.pos plat.box plat.pos) = true then
      { w with player := some { p with vel := ⟨p.vel.x, JUMP_VELOCITY⟩ } }
    else
      let vy := max (-MAX_FALL_SPEED) (p.vel.y - GRAVITY * dt)
      { w with player := some { p with vel := ⟨p.vel.x, vy⟩ } }

/-- System `kill_player_on_damage`: when the player exists and overlaps some
damage source, despawn the player entity. -/
def kill_player_on_damage (w : World) : World :=
  match w.player with
  | none => w
  | some p =>
    if w.hazards.any (fun h => p.box.test_overlap p.pos h.box h.pos) then
      { w with player := none }
    else w

/-- One iteration's worth of random draws inside the spawner loop:
`gen_range(-25..=25)` for the platform x, `gen_range(75.0..=125.0)` for the
hazard offset, the two `gen_ratio` bernoulli outcomes, and the
normally-jittered enemy patrol line endpoints. -/
structure Draw where
  platformX : ℚ
  offset : ℚ
  spikeRoll : Bool
  enemyRoll : Bool
  enemyLine : ℚ → Line
  -- the enemy line depends on the spawn height source; the Gaussian jitter is
  -- folded into the oracle

/-- Sprite-scale collision box: every spawned sprite keeps the default
transform scale `(1, 1, 1)`, so `Box::from(scale.truncate())` is the unit
box. -/
def spriteBox : Box := ⟨1, 1⟩

/-- The body of `Platform::spawn_single`: a platform at `(x, spawn_height)`
with the sprite-scale box; the drawn `x` is returned to the caller. -/
def platform_spawn_single (x spawn_height : ℚ) (w : World) : World :=
  { w with platforms := w.platforms ++ [⟨⟨x, spawn_height⟩, spriteBox⟩] }

/-- The body of `DamageSource::spawn_spikes`: a static damage source at
`spawn_pos`. -/
def damage_spawn_spikes (spawn_pos : Vec2) (w : World) : World :=
  { w with hazards := w.hazards ++ [⟨spawn_pos, spriteBox, none⟩] }

/-- The body of `DamageSource::spawn_enemy`: a moving damage source starting
at the patrol line's first endpoint, with a fresh repeating 1250 ms timer in
`BackAndForth(Forward)` mode. -/
def damage_spawn_enemy (line : Line) (w : World) : World :=
  { w with hazards := w.hazards ++
      [⟨line.p0, spriteBox,
        some (line, ⟨⟨5/4, 0, false⟩, .BackAndForth .Forward⟩)⟩] }

/-- One iteration of the `platform_spawner` loop body: advance
`LastPlatformSpawnHeight` to `ScreenHeight + SPAWN_BOUNDS + MIN_DISTANCE`,
spawn a platform there, and — except on the very first iteration of the
process lifetime (`non_initial` warm-up flag) — spawn a spike with the 1/4
roll and an enemy with the 1/7 roll at the drawn offset. -/
def spawner_body (d : Draw) (w : World) : World :=
  let last' := w.screenHeight + SPAWN_BOUNDS + MIN_DISTANCE
  let x := d.platformX
  let w1 := platform_spawn_single x last' { w with lastSpawnHeight := last' }
  if w1.nonInitial then
    let w2 := if d.spikeRoll then
        damage_spawn_spikes ⟨x, last' + d.offset⟩ w1
      else w1
    if d.enemyRoll then damage_spawn_enemy (d.enemyLine (last' + d.offset)) w2
    else w2
  else { w1 with nonInitial := true }

/-- The spawner's catch-up `while` loop with explicit fuel, counting the
iterations executed (`i` is the number done so far, also indexing the oracle).
`spawner_loop_stable` below shows every run is quiescent within fuel 2, so
the fuel bound never truncates the real loop. -/
def platform_spawner_loop (rng : ℕ → Draw) : ℕ → ℕ → World → World × ℕ
  | 0, i, w => (w, i)
  | Nat.succ fuel, i, w =>
    if w.lastSpawnHeight + MIN_DISTANCE ≤ w.screenHeight + SPAWN_BOUNDS then
      platform_spawner_loop rng fuel (i + 1) (spawner_body (rng i) w)
    else (w, i)

/-- System `platform_spawner`: run the catch-up loop to quiescence (fuel 2
suffices for every input, by `spawner_loop_stable`). -/
def platform_spawner (rng : ℕ → Draw) (w : World) : World :=
  (platform_spawner_loop rng 2 0 w).1

/-- One `FixedUpdate` tick in the chained order of the plugin:
`player_horizontal_control ; step_physics`, `step_interpolation`,
`keep_player_in_bounds`, `screen_tracking`, `platform_spawner ;
player_falling_jumping`, `kill_player_on_damage`.  Systems not ordered by
`.chain()` touch disjoint state, so this sequentialisation is faithful. -/
def game_tick (dt : ℚ) (left_press right_press : Bool) (rng : ℕ → Draw)
    (w : World) : World :=
  kill_player_on_damage
    (player_falling_jumping dt
      (platform_spawner rng
        (screen_tracking
          (keep_player_in_bounds
            (step_interpolation dt
              (step_physics dt
                (player_horizontal_control dt left_press right_press w)))))))

/-- Startup state: `Player::spawn` creates the player at the default
translation with `SPAWN_VELOCITY = (0, 550)` and the sprite-scale box;
`init_resource` gives both `ScreenHeight` and `LastPlatformSpawnHeight` their
`Default` value 0; the warm-up flag `Local<bool>` starts false. -/
def initial_world : World :=
  { player := some ⟨⟨0, 0⟩, ⟨0, 550⟩, spriteBox⟩
    platforms := []
    hazards := []
    screenHeight := 0
    lastSpawnHeight := 0
    cameraY := 0
    nonInitial := false }


/-- Fixed sample of the spawner's random draws, for concrete evaluations. -/
def sampleDraw : Draw := ⟨0, 100, false, false, fun h => ⟨⟨-325, h⟩, ⟨325, h⟩⟩⟩

/-- Constant oracle built from `sampleDraw`. -/
def sampleRng : ℕ → Draw := fun _ => sampleDraw

/-- Secondary definition following the specification's words (§4.5), for
comparison with `keep_player_in_bounds`: the spec states the clamp bound as
`screenWidth/2 - boxWidth` for the fixed screen-width constant, while the
code uses `screen_width - boxWidth` with `screen_width = 128`. -/
def keep_player_in_bounds_spec_halfwidth (w : World) : World :=
  match w.player with
  | none => w
  | some p =>
    let screen_width : ℚ := 128
    let allowed_width := screen_width / 2 - p.box.width
    if ¬(-allowed_width ≤ p.pos.x ∧ p.pos.x ≤ allowed_width) then
      let pos := Vec2.mk (fclamp p.pos.x (-allowed_width) allowed_width) p.pos.y
      { w with player := some { p with pos := pos, vel := ⟨0, p.vel.y⟩ } }
    else w

/-- Repeated application of the horizontal control over a list of ticks,
each a `(dt, (left, right))` triple of time step and pressed keys. -/
def control_run (ticks : List (ℚ × Bool × Bool)) (vx : ℚ) : ℚ :=
  ticks.foldl (fun v t => horizontal_control_step t.1 t.2.1 t.2.2 v) vx

/-- Concrete world with the player at x = 100 with a width-28 box: inside the
code's clamp range `[-(128 - 28), 128 - 28]` but outside the spec's halved
range `[-(64 - 28), 64 - 28]`. -/
def c6World : World :=
  { player := some ⟨⟨100, 0⟩, ⟨5, 0⟩, ⟨28, 1⟩⟩
    platforms := []
    hazards := []
    screenHeight := 0
    lastSpawnHeight := 0
    cameraY := 0
    nonInitial := false }

/-- Overlap test unfolded to its propositional content. -/
theorem test_overlap_eq_true_iff (A : Box) (pA : Vec2) (B : Box) (pB : Vec2) :
    A.test_overlap pA B pB = true ↔
      |pA.x - pB.x| ≤ A.width + B.width ∨ |pA.y - pB.y| ≤ A.height + B.height := by
  simp [Box.test_overlap]

/-- C1: `Box::test_overlap` returns true iff the per-axis center distance is
within the combined extent on the x-axis OR on the y-axis (logical OR, not
AND); it is symmetric in its two box/position arguments; it returns true
whenever the two centers coincide (given a nonnegative combined extent on at
least one axis, which holds for all actual boxes); and it returns false
exactly when both per-axis center distances exceed the combined extents. -/
theorem C1_test_overlap_or_symmetric (A : Box) (pA : Vec2) (B : Box) (pB : Vec2) :
    (A.test_overlap pA B pB = true ↔
      |pA.x - pB.x| ≤ A.width + B.width ∨ |pA.y - pB.y| ≤ A.height + B.height) ∧
    A.test_overlap pA B pB = B.test_overlap pB A pA ∧
    ((0 ≤ A.width + B.width ∨ 0 ≤ A.height + B.height) → pA = pB →
      A.test_overlap pA B pB = true) ∧
    (A.width + B.width < |pA.x - pB.x| ∧ A.height + B.height < |pA.y - pB.y| →
      A.test_overlap pA B pB = false) := by
  refine ⟨test_overlap_eq_true_iff A pA B pB, ?_, ?_, ?_⟩
  · simp only [Box.test_overlap, abs_sub_comm pA.x pB.x, abs_sub_comm pA.y pB.y,
      add_comm A.width B.width, add_comm A.height B.height]
  · rintro h rfl
    rcases h with h | h
    · exact (test_overlap_eq_true_iff A pA B pA).mpr (Or.inl (by simpa using h))
    · exact (test_overlap_eq_true_iff A pA B pA).mpr (Or.inr (by simpa using h))
  · rintro ⟨h1, h2⟩
    rw [Bool.eq_false_iff]
    intro hc
    rcases (test_overlap_eq_true_iff A pA B pB).mp hc with h | h
    · exact absurd h (not_le.mpr h1)
    · exact absurd h (not_le.mpr h2)

/-- Witness for C1 at the unit boxes with coinciding centers. -/
theorem C1_witness :
    Box.test_overlap ⟨1, 1⟩ ⟨0, 0⟩ ⟨1, 1⟩ ⟨0, 0⟩ = true :=
  (C1_test_overlap_or_symmetric ⟨1, 1⟩ ⟨0, 0⟩ ⟨1, 1⟩ ⟨0, 0⟩).2.2.1
    (Or.inl (by norm_num)) rfl

/-- The spawner loop body leaves `ScreenHeight` unchanged. -/
theorem spawner_body_screenHeight (d : Draw) (w : World) :
    (spawner_body d w).screenHeight = w.screenHeight := by
  unfold spawner_body platform_spawn_single damage_spawn_spikes damage_spawn_enemy
  dsimp only
  split_ifs <;> rfl

/-- The spawner loop body sets the spawn frontier to
`ScreenHeight + SPAWN_BOUNDS + MIN_DISTANCE`. -/
theorem spawner_body_lastSpawnHeight (d : Draw) (w : World) :
    (spawner_body d w).lastSpawnHeight =
      w.screenHeight + SPAWN_BOUNDS + MIN_DISTANCE := by
  unfold spawner_body platform_spawn_single damage_spawn_spikes damage_spawn_enemy
  dsimp only
  split_ifs <;> rfl

/-- The spawner loop body never touches the player entity. -/
theorem spawner_body_player (d : Draw) (w : World) :
    (spawner_body d w).player = w.player := by
  unfold spawner_body platform_spawn_single damage_spawn_spikes damage_spawn_enemy
  dsimp only
  split_ifs <;> rfl

/-- After one body execution the loop guard is false. -/
theorem spawner_body_guard_false (d : Draw) (w : World) :
    ¬((spawner_body d w).lastSpawnHeight + MIN_DISTANCE ≤
        (spawner_body d w).screenHeight + SPAWN_BOUNDS) := by
  rw [spawner_body_lastSpawnHeight, spawner_body_screenHeight]
  unfold MIN_DISTANCE SPAWN_BOUNDS
  intro h
  linarith

/-- A state with a false guard is a fixed point of the loop for every fuel. -/
theorem spawner_loop_of_guard_false (rng : ℕ → Draw) (n i : ℕ) (w : World)
    (h : ¬(w.lastSpawnHeight + MIN_DISTANCE ≤ w.screenHeight + SPAWN_BOUNDS)) :
    platform_spawner_loop rng n i w = (w, i) := by
  cases n with
  | zero => rfl
  | succ n => simp only [platform_spawner_loop, if_neg h]

/-- The loop stabilises after one unit of fuel: every run with fuel at least
one returns the fuel-one result. -/
theorem spawner_loop_eq_one (rng : ℕ → Draw) (n i : ℕ) (w : World) (h : 1 ≤ n) :
    platform_spawner_loop rng n i w = platform_spawner_loop rng 1 i w := by
  cases n with
  | zero => exact absurd h (by norm_num)
  | succ n =>
    by_cases hg : w.lastSpawnHeight + MIN_DISTANCE ≤ w.screenHeight + SPAWN_BOUNDS
    · simp only [platform_spawner_loop, if_pos hg]
      rw [spawner_loop_of_guard_false rng n (i + 1) _ (spawner_body_guard_false _ _)]
    · simp only [platform_spawner_loop, if_neg hg]

/-- Every loop run with positive fuel ends in a state whose guard is false. -/
theorem spawner_loop_quiescent (rng : ℕ → Draw) (n i : ℕ) (w : World) (h : 1 ≤ n) :
    ¬((platform_spawner_loop rng n i w).1.lastSpawnHeight + MIN_DISTANCE ≤
        (platform_spawner_loop rng n i w).1.screenHeight + SPAWN_BOUNDS) := by
  rw [spawner_loop_eq_one rng n i w h]
  by_cases hg : w.lastSpawnHeight + MIN_DISTANCE ≤ w.screenHeight + SPAWN_BOUNDS
  · simp only [platform_spawner_loop, if_pos hg]
    exact spawner_body_guard_false _ _
  · simp only [platform_spawner_loop, if_neg hg]
    exact hg

/-- C5: for every starting value of `ScreenHeight` and
`LastPlatformSpawnHeight` (and every outcome of the random draws), the
spawner's catch-up loop terminates — its fuel-indexed runs stabilise after
one unit of fuel — and at quiescence the guard is false:
`HeightFrontier + SPAWN_BOUNDS < LastSpawnFrontier + MIN_DISTANCE`. -/
theorem C5_spawner_terminates_quiescent (rng : ℕ → Draw) (w : World) :
    (∀ n, 1 ≤ n →
      platform_spawner_loop rng n 0 w = platform_spawner_loop rng 1 0 w) ∧
    (platform_spawner rng w).screenHeight + SPAWN_BOUNDS <
      (platform_spawner rng w).lastSpawnHeight + MIN_DISTANCE := by
  constructor
  · intro n hn
    exact spawner_loop_eq_one rng n 0 w hn
  · have h := spawner_loop_quiescent rng 2 0 w (by norm_num)
    refine lt_of_not_le fun hc => h ?_
    unfold platform_spawner at hc
    linarith

/-- Witness for C5 at the startup state with the sample oracle. -/
theorem C5_witness :
    platform_spawner_loop sampleRng 2 0 initial_world =
      platform_spawner_loop sampleRng 1 0 initial_world :=
  (C5_spawner_terminates_quiescent sampleRng initial_world).1 2 (by norm_num)

/-- C10: a single `platform_spawner` call executes its loop body at most
once: the iteration counter of every run is at most one, and whenever the
guard holds initially, the single iteration sets `LastPlatformSpawnHeight`
to `ScreenHeight + SPAWN_BOUNDS + MIN_DISTANCE`, leaves `ScreenHeight`
unchanged, and thereby falsifies the guard — a multi-iteration catch-up
within one call never occurs. -/
theorem C10_spawner_at_most_one_iteration (rng : ℕ → Draw) (w : World) (n : ℕ) :
    (platform_spawner_loop rng n 0 w).2 ≤ 1 ∧
    (1 ≤ n → w.lastSpawnHeight + MIN_DISTANCE ≤ w.screenHeight + SPAWN_BOUNDS →
      (platform_spawner_loop rng n 0 w).1.lastSpawnHeight =
          w.screenHeight + SPAWN_BOUNDS + MIN_DISTANCE ∧
        (platform_spawner_loop rng n 0 w).1.screenHeight = w.screenHeight ∧
        ¬((platform_spawner_loop rng n 0 w).1.lastSpawnHeight + MIN_DISTANCE ≤
            (platform_spawner_loop rng n 0 w).1.screenHeight + SPAWN_BOUNDS)) := by
  constructor
  · cases n with
    | zero => norm_num [platform_spawner_loop]
    | succ n =>
      rw [spawner_loop_eq_one rng (n + 1) 0 w (by norm_num)]
      by_cases hg : w.lastSpawnHeight + MIN_DISTANCE ≤ w.screenHeight + SPAWN_BOUNDS
      · simp only [platform_spawner_loop, if_pos hg]
        norm_num
      · simp only [platform_spawner_loop, if_neg hg]
        norm_num
  · intro hn hg
    rw [spawner_loop_eq_one rng n 0 w hn]
    simp only [platform_spawner_loop, if_pos hg]
    exact ⟨spawner_body_lastSpawnHeight _ _, spawner_body_screenHeight _ _,
      spawner_body_guard_false _ _⟩

/-- Witness for C10 at `ScreenHeight = 50`, where the guard holds. -/
theorem C10_witness :
    (platform_spawner_loop sampleRng 2 0
        { initial_world with screenHeight := 50 }).1.lastSpawnHeight = 353 := by
  have h := (C10_spawner_at_most_one_iteration sampleRng
      { initial_world with screenHeight := 50 } 2).2 (by norm_num)
      (by unfold initial_world MIN_DISTANCE SPAWN_BOUNDS; norm_num)
  rw [h.1]
  unfold initial_world MIN_DISTANCE SPAWN_BOUNDS
  norm_num

/-- C3 counterexample: at `HeightFrontier = 0`, `LastSpawnFrontier = 0` the
guard `0 + 128 ≥ 0 + 175` is false, so the spawner performs zero loop
iterations — not one — leaves `LastPlatformSpawnHeight` at 0 — not 303 —
and spawns no platform. -/
theorem C3_counterexample :
    (platform_spawner_loop sampleRng 2 0 initial_world).2 = 0 ∧
    (platform_spawner_loop sampleRng 2 0 initial_world).2 ≠ 1 ∧
    (platform_spawner_loop sampleRng 2 0 initial_world).1.lastSpawnHeight = 0 ∧
    (platform_spawner_loop sampleRng 2 0 initial_world).1.lastSpawnHeight ≠ 303 ∧
    (platform_spawner_loop sampleRng 2 0 initial_world).1.platforms = [] := by
  have h : platform_spawner_loop sampleRng 2 0 initial_world = (initial_world, 0) := by
    apply spawner_loop_of_guard_false
    unfold initial_world MIN_DISTANCE SPAWN_BOUNDS
    norm_num
  rw [h]
  refine ⟨rfl, by norm_num, rfl, ?_, rfl⟩
  simp [initial_world]

/-- C3 amended: from `HeightFrontier = 0` and `LastSpawnFrontier = 0` (with
`MIN_DISTANCE = 175`, `SPAWN_BOUNDS = 128`) a run of the spawner performs
zero loop iterations, leaves `LastPlatformSpawnHeight` at 0, spawns no
platform and no hazard, for every outcome of the random draws: the loop
guard `0 + 128 ≥ 0 + 175` is false on entry. -/
theorem C3_amended_spawner_initial_noop (rng : ℕ → Draw) (n : ℕ) (w : World)
    (hs : w.screenHeight = 0) (hl : w.lastSpawnHeight = 0) :
    platform_spawner_loop rng n 0 w = (w, 0) := by
  apply spawner_loop_of_guard_false
  rw [hs, hl]
  unfold MIN_DISTANCE SPAWN_BOUNDS
  norm_num

/-- Witness for the amended C3 at the startup state. -/
theorem C3_witness :
    platform_spawner_loop sampleRng 2 0 initial_world = (initial_world, 0) :=
  C3_amended_spawner_initial_noop sampleRng 2 initial_world rfl rfl

/-- Horizontal control never touches `ScreenHeight`. -/
theorem player_horizontal_control_screenHeight (dt : ℚ) (l r : Bool) (w : World) :
    (player_horizontal_control dt l r w).screenHeight = w.screenHeight := by
  unfold player_horizontal_control
  cases w.player <;> rfl

/-- Horizontal control is the identity without a player. -/
theorem player_horizontal_control_none (dt : ℚ) (l r : Bool) (w : World)
    (hw : w.player = none) : player_horizontal_control dt l r w = w := by
  unfold player_horizontal_control
  rw [hw]

/-- Integration never touches `ScreenHeight`. -/
theorem step_physics_screenHeight (dt : ℚ) (w : World) :
    (step_physics dt w).screenHeight = w.screenHeight := by
  unfold step_physics
  cases w.player <;> rfl

/-- Integration is the identity without a player (the player is the only
entity carrying a `Velocity`). -/
theorem step_physics_none (dt : ℚ) (w : World) (hw : w.player = none) :
    step_physics dt w = w := by
  unfold step_physics
  rw [hw]

/-- Interpolation never touches `ScreenHeight`. -/
theorem step_interpolation_screenHeight (dt : ℚ) (w : World) :
    (step_interpolation dt w).screenHeight = w.screenHeight := rfl

/-- Interpolation never touches the player entity. -/
theorem step_interpolation_player (dt : ℚ) (w : World) :
    (step_interpolation dt w).player = w.player := rfl

/-- Bound clamping never touches `ScreenHeight`. -/
theorem keep_player_in_bounds_screenHeight (w : World) :
    (keep_player_in_bounds w).screenHeight = w.screenHeight := by
  unfold keep_player_in_bounds
  cases w.player with
  | none => rfl
  | some p =>
    dsimp only
    split_ifs <;> rfl

/-- Bound clamping is the identity without a player. -/
theorem keep_player_in_bounds_none (w : World) (hw : w.player = none) :
    keep_player_in_bounds w = w := by
  unfold keep_player_in_bounds
  rw [hw]

/-- The height tracker only ever raises `ScreenHeight`. -/
theorem screen_tracking_mono (w : World) :
    w.screenHeight ≤ (screen_tracking w).screenHeight := by
  unfold screen_tracking
  cases w.player with
  | none => exact le_refl _
  | some p =>
    dsimp only
    split_ifs with h
    · exact h
    · exact le_refl _

/-- The height tracker is the identity without a player. -/
theorem screen_tracking_none (w : World) (hw : w.player = none) :
    screen_tracking w = w := by
  unfold screen_tracking
  rw [hw]

/-- The spawner loop preserves `ScreenHeight` (it only reads the resource). -/
theorem spawner_loop_screenHeight (rng : ℕ → Draw) (n i : ℕ) (w : World) :
    (platform_spawner_loop rng n i w).1.screenHeight = w.screenHeight := by
  induction n generalizing i w with
  | zero => rfl
  | succ n ih =>
    by_cases hg : w.lastSpawnHeight + MIN_DISTANCE ≤ w.screenHeight + SPAWN_BOUNDS
    · simp only [platform_spawner_loop, if_pos hg]
      rw [ih, spawner_body_screenHeight]
    · simp only [platform_spawner_loop, if_neg hg]

/-- The spawner loop never touches the player entity. -/
theorem spawner_loop_player (rng : ℕ → Draw) (n i : ℕ) (w : World) :
    (platform_spawner_loop rng n i w).1.player = w.player := by
  induction n generalizing i w with
  | zero => rfl
  | succ n ih =>
    by_cases hg : w.lastSpawnHeight + MIN_DISTANCE ≤ w.screenHeight + SPAWN_BOUNDS
    · simp only [platform_spawner_loop, if_pos hg]
      rw [ih, spawner_body_player]
    · simp only [platform_spawner_loop, if_neg hg]

/-- The spawner system preserves `ScreenHeight`. -/
theorem platform_spawner_screenHeight (rng : ℕ → Draw) (w : World) :
    (platform_spawner rng w).screenHeight = w.screenHeight :=
  spawner_loop_screenHeight rng 2 0 w

/-- The spawner system never touches the player entity. -/
theorem platform_spawner_player (rng : ℕ → Draw) (w : World) :
    (platform_spawner rng w).player = w.player :=
  spawner_loop_player rng 2 0 w

/-- The jump/fall system never touches `ScreenHeight`. -/
theorem player_falling_jumping_screenHeight (dt : ℚ) (w : World) :
    (player_falling_jumping dt w).screenHeight = w.screenHeight := by
  unfold player_falling_jumping
  cases w.player with
  | none => rfl
  | some p =>
    dsimp only
    split_ifs <;> rfl

/-- The jump/fall system is the identity without a player. -/
theorem player_falling_jumping_none (dt : ℚ) (w : World) (hw : w.player = none) :
    player_falling_jumping dt w = w := by
  unfold player_falling_jumping
  rw [hw]

/-- The damage system never touches `ScreenHeight`. -/
theorem kill_player_on_damage_screenHeight (w : World) :
    (kill_player_on_damage w).screenHeight = w.screenHeight := by
  unfold kill_player_on_damage
  cases w.player with
  | none => rfl
  | some p =>
    dsimp only
    split_ifs <;> rfl

/-- The damage system is the identity without a player. -/
theorem kill_player_on_damage_none (w : World) (hw : w.player = none) :
    kill_player_on_damage w = w := by
  unfold kill_player_on_damage
  rw [hw]

/-- C2: the height frontier `ScreenHeight` is monotonically non-decreasing
across a whole tick (no system ever lowers it); `screen_tracking` raises it
to the player's y-position exactly when a player exists and that y-position
is at least the current frontier (and leaves everything alone when the
player is absent); and it starts at its `Default` value 0. -/
theorem C2_screen_height_monotone :
    (∀ dt l r rng w, w.screenHeight ≤ (game_tick dt l r rng w).screenHeight) ∧
    (∀ w p, w.player = some p →
      (screen_tracking w).screenHeight =
        if w.screenHeight ≤ p.pos.y then p.pos.y else w.screenHeight) ∧
    (∀ w, w.player = none → screen_tracking w = w) ∧
    initial_world.screenHeight = 0 := by
  refine ⟨?_, ?_, screen_tracking_none, rfl⟩
  · intro dt l r rng w
    unfold game_tick
    rw [kill_player_on_damage_screenHeight, player_falling_jumping_screenHeight,
      platform_spawner_screenHeight]
    refine le_trans ?_ (screen_tracking_mono _)
    rw [keep_player_in_bounds_screenHeight, step_interpolation_screenHeight,
      step_physics_screenHeight, player_horizontal_control_screenHeight]
  · intro w p hp
    unfold screen_tracking
    rw [hp]
    dsimp only
    split_ifs <;> rfl

/-- Witness for C2 at the startup state, whose player is at height 0. -/
theorem C2_witness :
    (screen_tracking initial_world).screenHeight =
      if initial_world.screenHeight ≤ (0 : ℚ) then (0 : ℚ)
      else initial_world.screenHeight :=
  C2_screen_height_monotone.2.1 initial_world ⟨⟨0, 0⟩, ⟨0, 550⟩, spriteBox⟩ rfl

/-- C8: with no player entity (the normal state after death) each
player-dependent system — `player_horizontal_control`,
`keep_player_in_bounds`, `player_falling_jumping`, `screen_tracking` and
`kill_player_on_damage` — is the identity on the whole world for that tick
(a silent no-op; in this total-function embedding no panic is possible);
when the player exists and overlaps some hazard, `kill_player_on_damage`
leaves the player unqueryable; and once the player is absent it stays
absent across every subsequent full tick. -/
theorem C8_absent_player_noop :
    (∀ dt l r w, w.player = none → player_horizontal_control dt l r w = w) ∧
    (∀ w, w.player = none → keep_player_in_bounds w = w) ∧
    (∀ dt w, w.player = none → player_falling_jumping dt w = w) ∧
    (∀ w, w.player = none → screen_tracking w = w) ∧
    (∀ w, w.player = none → kill_player_on_damage w = w) ∧
    (∀ w p, w.player = some p →
      w.hazards.any (fun h => p.box.test_overlap p.pos h.box h.pos) = true →
      (kill_player_on_damage w).player = none) ∧
    (∀ dt l r rng w, w.player = none → (game_tick dt l r rng w).player = none) := by
  refine ⟨player_horizontal_control_none, keep_player_in_bounds_none,
    player_falling_jumping_none, screen_tracking_none,
    kill_player_on_damage_none, ?_, ?_⟩
  · intro w p hp hov
    unfold kill_player_on_damage
    rw [hp]
    dsimp only
    rw [if_pos hov]
  · intro dt l r rng w hw
    unfold game_tick
    rw [player_horizontal_control_none dt l r w hw, step_physics_none dt w hw]
    have hi : (step_interpolation dt w).player = none := by
      rw [step_interpolation_player]
      exact hw
    rw [keep_player_in_bounds_none _ hi, screen_tracking_none _ hi]
    have hs : (platform_spawner rng (step_interpolation dt w)).player = none := by
      rw [platform_spawner_player]
      exact hi
    rw [player_falling_jumping_none dt _ hs, kill_player_on_damage_none _ hs]
    exact hs

/-- Witness for C8 at the startup state with the player removed. -/
theorem C8_witness :
    screen_tracking { initial_world with player := none } =
      { initial_world with player := none } :=
  C8_absent_player_noop.2.2.2.1 { initial_world with player := none } rfl

/-- C4: when a player exists, `player_falling_jumping` sets `velocity.y` to
exactly `JUMP_VELOCITY` when the vertical velocity is at most the epsilon
0.1 and the player's box overlaps (per the §4.1 test) some platform's box,
and otherwise sets it to `max(-MAX_FALL_SPEED, velocity.y - GRAVITY*dt)`;
in particular a player with `v.y = 0` overlapping a platform gets
`v.y = JUMP_VELOCITY` exactly, and a player with `v.y = 0`, no overlapping
platform and `dt = 1` gets `v.y = -GRAVITY`. -/
theorem C4_falling_jumping_spec (dt : ℚ) (w : World) (p : PlayerState)
    (hp : w.player = some p) :
    ((p.vel.y ≤ 1/10 ∧
        w.platforms.any (fun plat => p.box.test_overlap p.pos plat.box plat.pos) = true) →
      player_falling_jumping dt w = { w with player := some { p with vel := ⟨p.vel.x, JUMP_VELOCITY⟩ } }) ∧
    (¬(p.vel.y ≤ 1/10 ∧
        w.platforms.any (fun plat => p.box.test_overlap p.pos plat.box plat.pos) = true) →
      player_falling_jumping dt w = { w with player := some { p with vel := ⟨p.vel.x, max (-MAX_FALL_SPEED) (p.vel.y - GRAVITY * dt)⟩ } }) ∧
    (p.vel.y = 0 →
      w.platforms.any (fun plat => p.box.test_overlap p.pos plat.box plat.pos) = true →
      player_falling_jumping dt w = { w with player := some { p with vel := ⟨p.vel.x, JUMP_VELOCITY⟩ } }) ∧
    (p.vel.y = 0 →
      w.platforms.any (fun plat => p.box.test_overlap p.pos plat.box plat.pos) = false →
      dt = 1 →
      player_falling_jumping dt w = { w with player := some { p with vel := ⟨p.vel.x, -GRAVITY⟩ } }) := by
  have hthen : ∀ (h : p.vel.y ≤ 1/10 ∧
      w.platforms.any (fun plat => p.box.test_overlap p.pos plat.box plat.pos) = true),
      player_falling_jumping dt w =
        { w with player := some { p with vel := ⟨p.vel.x, JUMP_VELOCITY⟩ } } := by
    intro h
    unfold player_falling_jumping
    rw [hp]
    dsimp only
    rw [if_pos h]
  have helse : ∀ (h : ¬(p.vel.y ≤ 1/10 ∧
      w.platforms.any (fun plat => p.box.test_overlap p.pos plat.box plat.pos) = true)),
      player_falling_jumping dt w =
        { w with player := some { p with vel := ⟨p.vel.x, max (-MAX_FALL_SPEED) (p.vel.y - GRAVITY * dt)⟩ } } := by
    intro h
    unfold player_falling_jumping
    rw [hp]
    dsimp only
    rw [if_neg h]
  refine ⟨hthen, helse, ?_, ?_⟩
  · intro hv hov
    exact hthen ⟨by rw [hv]; norm_num, hov⟩
  · intro hv hov hdt
    have hneg : ¬(p.vel.y ≤ 1/10 ∧
        w.platforms.any (fun plat => p.box.test_overlap p.pos plat.box plat.pos) = true) := by
      rintro ⟨h1, h2⟩
      rw [hov] at h2
      exact Bool.false_ne_true h2
    rw [helse hneg, hv, hdt, mul_one, zero_sub,
      max_eq_right (by unfold GRAVITY MAX_FALL_SPEED; norm_num : -MAX_FALL_SPEED ≤ -GRAVITY)]

/-- Witness for C4: a resting player overlapping a platform jumps. -/
theorem C4_witness :
    player_falling_jumping 1
        { initial_world with player := some ⟨⟨0, 0⟩, ⟨0, 0⟩, spriteBox⟩, platforms := [⟨⟨0, 0⟩, spriteBox⟩] } =
      { initial_world with player := some ⟨⟨0, 0⟩, ⟨0, JUMP_VELOCITY⟩, spriteBox⟩, platforms := [⟨⟨0, 0⟩, spriteBox⟩] } :=
  (C4_falling_jumping_spec 1
      { initial_world with player := some ⟨⟨0, 0⟩, ⟨0, 0⟩, spriteBox⟩, platforms := [⟨⟨0, 0⟩, spriteBox⟩] }
      ⟨⟨0, 0⟩, ⟨0, 0⟩, spriteBox⟩ rfl).2.2.1 rfl
    (by norm_num [Box.test_overlap, spriteBox])

/-- C6 counterexample: the player at x = 100 with box width 28 exceeds the
claim's bound `screenWidth/2 - boxWidth = 64 - 28 = 36`, yet the code leaves
position and velocity unchanged (its actual bound is `128 - 28 = 100`),
while the spec-worded variant clamps to 36 and zeroes the velocity — so the
claim, as stated, is false on the code at this input. -/
theorem C6_counterexample :
    128 / 2 - (28 : ℚ) < |(100 : ℚ)| ∧
    keep_player_in_bounds c6World = c6World ∧
    (keep_player_in_bounds_spec_halfwidth c6World).player =
      some ⟨⟨36, 0⟩, ⟨0, 0⟩, ⟨28, 1⟩⟩ ∧
    keep_player_in_bounds_spec_halfwidth c6World ≠ keep_player_in_bounds c6World := by
  have hcode : keep_player_in_bounds c6World = c6World := by
    unfold keep_player_in_bounds c6World
    norm_num
  have hspec : (keep_player_in_bounds_spec_halfwidth c6World).player =
      some ⟨⟨36, 0⟩, ⟨0, 0⟩, ⟨28, 1⟩⟩ := by
    unfold keep_player_in_bounds_spec_halfwidth c6World
    norm_num [fclamp]
  refine ⟨by norm_num, hcode, hspec, ?_⟩
  intro hc
  rw [hc, hcode] at hspec
  simp [c6World] at hspec

/-- C6 amended: after integration, when the player's x-position leaves
`±(screen_width - boxWidth)` for the fixed constant `screen_width = 128`
(the code does not halve the constant), `keep_player_in_bounds` clamps the
x-position to that bound and zeroes `velocity.x`; within the bound it leaves
position and velocity unchanged. -/
theorem C6_bounds_clamp (w : World) (p : PlayerState) (hp : w.player = some p) :
    (¬(-(128 - p.box.width) ≤ p.pos.x ∧ p.pos.x ≤ 128 - p.box.width) →
      keep_player_in_bounds w = { w with player := some { p with pos := ⟨fclamp p.pos.x (-(128 - p.box.width)) (128 - p.box.width), p.pos.y⟩, vel := ⟨0, p.vel.y⟩ } }) ∧
    ((-(128 - p.box.width) ≤ p.pos.x ∧ p.pos.x ≤ 128 - p.box.width) →
      keep_player_in_bounds w = w) := by
  constructor
  · intro h
    unfold keep_player_in_bounds
    rw [hp]
    dsimp only
    rw [if_pos h]
  · intro h
    unfold keep_player_in_bounds
    rw [hp]
    dsimp only
    rw [if_neg (not_not_intro h)]

/-- Witness for the amended C6: an in-bounds player is left unchanged. -/
theorem C6_witness : keep_player_in_bounds c6World = c6World :=
  (C6_bounds_clamp c6World ⟨⟨100, 0⟩, ⟨5, 0⟩, ⟨28, 1⟩⟩ rfl).2 (by norm_num)

/-- One control step keeps the horizontal speed within the clamp. -/
theorem horizontal_control_step_bound (dt : ℚ) (l r : Bool) (vx : ℚ)
    (hdt : 0 ≤ dt) (hvx : |vx| ≤ MAX_HORIZONTAL_SPEED) :
    |horizontal_control_step dt l r vx| ≤ MAX_HORIZONTAL_SPEED := by
  have hacc : 0 ≤ HORIZONTAL_ACCELERATION * dt := by
    unfold HORIZONTAL_ACCELERATION
    positivity
  rcases abs_le.mp hvx with ⟨h1, h2⟩
  rw [abs_le]
  cases l <;> cases r <;> simp only [horizontal_control_step]
  · exact ⟨h1, h2⟩
  · exact ⟨le_min (by linarith) (by linarith), min_le_left _ _⟩
  · exact ⟨le_max_left _ _, max_le (by linarith) (by linarith)⟩
  · exact ⟨h1, h2⟩

/-- Iterated control steps keep the horizontal speed within the clamp. -/
theorem control_run_bound (ticks : List (ℚ × Bool × Bool)) (vx : ℚ)
    (hticks : ∀ t ∈ ticks, 0 ≤ t.1) (hvx : |vx| ≤ MAX_HORIZONTAL_SPEED) :
    |control_run ticks vx| ≤ MAX_HORIZONTAL_SPEED := by
  induction ticks generalizing vx with
  | nil => exact hvx
  | cons t ts ih =>
    rw [show control_run (t :: ts) vx =
        control_run ts (horizontal_control_step t.1 t.2.1 t.2.2 vx) from rfl]
    exact ih _ (fun s hs => hticks s (List.mem_cons_of_mem _ hs))
      (horizontal_control_step_bound _ _ _ _ (hticks t (List.mem_cons_self _ _)) hvx)

/-- C7: starting from any horizontal velocity within
`±MAX_HORIZONTAL_SPEED`, any sequence of control ticks with any input
signals and nonnegative `dt` keeps `|velocity.x|` within the clamp; a Left
press updates it to `max(-MAX_HORIZONTAL_SPEED, vx - ACCEL*dt)`, a Right
press to `min(MAX_HORIZONTAL_SPEED, vx + ACCEL*dt)`, both-or-neither leave
it unchanged; and bound clamping either leaves the player untouched or sets
`velocity.x` to 0 (never any other value). -/
theorem C7_horizontal_speed_invariant :
    (∀ ticks vx, (∀ t ∈ ticks, 0 ≤ t.1) → |vx| ≤ MAX_HORIZONTAL_SPEED →
      |control_run ticks vx| ≤ MAX_HORIZONTAL_SPEED) ∧
    (∀ dt vx, horizontal_control_step dt true false vx =
      max (-MAX_HORIZONTAL_SPEED) (vx - HORIZONTAL_ACCELERATION * dt)) ∧
    (∀ dt vx, horizontal_control_step dt false true vx =
      min MAX_HORIZONTAL_SPEED (vx + HORIZONTAL_ACCELERATION * dt)) ∧
    (∀ dt vx, horizontal_control_step dt true true vx = vx ∧
      horizontal_control_step dt false false vx = vx) ∧
    (∀ w p, w.player = some p →
      keep_player_in_bounds w = w ∨
      ∃ q : PlayerState, (keep_player_in_bounds w).player = some q ∧
        q.vel.x = 0 ∧ q.vel.y = p.vel.y) := by
  refine ⟨control_run_bound, fun dt vx => rfl, fun dt vx => rfl,
    fun dt vx => ⟨rfl, rfl⟩, ?_⟩
  intro w p hp
  unfold keep_player_in_bounds
  rw [hp]
  dsimp only
  split_ifs with h
  · left
    rfl
  · right
    exact ⟨_, rfl, rfl, rfl⟩

/-- Witness for C7 on the empty tick sequence at rest. -/
theorem C7_witness : |control_run [] (0 : ℚ)| ≤ MAX_HORIZONTAL_SPEED :=
  C7_horizontal_speed_invariant.1 [] 0 (fun t ht => absurd ht (List.not_mem_nil t))
    (by norm_num [control_run, MAX_HORIZONTAL_SPEED])

/-- Linear interpolation at parameter 1 reaches the second endpoint. -/
theorem lerp_one (a b : Vec2) : a.lerp b 1 = b := by
  rcases b with ⟨c, d⟩
  unfold Vec2.lerp
  dsimp only
  rw [Vec2.mk.injEq]
  constructor <;> ring

/-- Linear interpolation at parameter 0 stays at the first endpoint. -/
theorem lerp_zero (a b : Vec2) : a.lerp b 0 = a := by
  rcases a with ⟨c, d⟩
  unfold Vec2.lerp
  dsimp only
  rw [Vec2.mk.injEq]
  constructor <;> ring

/-- Ticking a fresh repeating timer by exactly its positive duration
completes the cycle and wraps the elapsed time back to 0. -/
theorem timer_tick_full_cycle (D : ℚ) (hD : 0 < D) (b : Bool) :
    (Timer.mk D 0 b).tick D = ⟨D, 0, true⟩ := by
  unfold Timer.tick
  dsimp only
  rw [if_pos (by linarith : D ≤ 0 + D)]
  rw [Timer.mk.injEq]
  refine ⟨rfl, ?_, rfl⟩
  rw [zero_add, div_self (ne_of_gt hD), Int.floor_one]
  push_cast
  ring

/-- C9: `step_interpolation` on a `BackAndForth` entity flips the stored
direction exactly when the ticked timer's cycle completed, uses parameter
`t` (the cycle fraction) in `Forward` direction — as it does in `Wrapping`
mode — and `1 - t` in `Backward` direction, placing the entity at the
linear interpolation of the two `Line` endpoints at that parameter; over a
full cycle starting `Forward` at fraction 0 the position lands on the
second endpoint with the direction flipped, and over the next full cycle
it returns to the first endpoint with the original direction — ping-pong
motion with the original endpoint ordering restored after two cycles. -/
theorem C9_interpolation_back_and_forth :
    (∀ delta line tm (d : Direction),
      step_interpolation_one delta line ⟨tm, .BackAndForth d⟩ =
        (line.p0.lerp line.p1
          (match (if (tm.tick delta).finishedThisTick then d.flip else d) with
            | Direction.Forward => (tm.tick delta).fraction
            | Direction.Backward => 1 - (tm.tick delta).fraction),
         ⟨tm.tick delta,
          .BackAndForth (if (tm.tick delta).finishedThisTick then d.flip else d)⟩)) ∧
    (∀ delta line tm,
      step_interpolation_one delta line ⟨tm, .Wrapping⟩ =
        (line.p0.lerp line.p1 (tm.tick delta).fraction, ⟨tm.tick delta, .Wrapping⟩)) ∧
    (∀ (D : ℚ), 0 < D → ∀ line : Line,
      step_interpolation_one D line ⟨⟨D, 0, false⟩, .BackAndForth .Forward⟩ =
          (line.p1, ⟨⟨D, 0, true⟩, .BackAndForth .Backward⟩) ∧
      step_interpolation_one D line ⟨⟨D, 0, true⟩, .BackAndForth .Backward⟩ =
          (line.p0, ⟨⟨D, 0, true⟩, .BackAndForth .Forward⟩)) := by
  refine ⟨?_, ?_, ?_⟩
  · intro delta line tm d
    cases d <;> by_cases hf : (tm.tick delta).finishedThisTick <;>
      simp [step_interpolation_one, hf, Direction.flip]
  · intro delta line tm
    by_cases hf : (tm.tick delta).finishedThisTick <;>
      simp [step_interpolation_one, hf]
  · intro D hD line
    have htick := timer_tick_full_cycle D hD
    constructor <;>
      simp [step_interpolation_one, htick, Timer.fraction, Direction.flip,
        lerp_one, lerp_zero]

/-- Witness for C9: one full unit cycle moves the entity to the second
endpoint and flips the direction. -/
theorem C9_witness :
    step_interpolation_one 1 ⟨⟨0, 0⟩, ⟨2, 4⟩⟩ ⟨⟨1, 0, false⟩, .BackAndForth .Forward⟩ =
      (⟨2, 4⟩, ⟨⟨1, 0, true⟩, .BackAndForth .Backward⟩) :=
  (C9_interpolation_back_and_forth.2.2 1 (by norm_num) ⟨⟨0, 0⟩, ⟨2, 4⟩⟩).1

end Jumper
